import Mathlib

/-!
Verification of the test-run evaluation pipeline of the nurse-assistant
repository: the BLEU lexical scorer, the cosine-similarity semantic scorer
with its embedding-primary / TF-IDF-fallback strategy, the LLM-as-judge
response parser, and the test-run orchestrator with per-case fault isolation.

External collaborators (the LLM providers, the embedding provider, the
JavaScript regex and JSON engines, the file system) are modelled as explicit
parameters; everything else is translated directly from the TypeScript source.
Real-number arithmetic in the source (Math.exp, Math.log, Math.sqrt) is
modelled over ℝ; exact fractions computed by the source (n-gram precisions,
term frequencies, judge scores) are modelled over ℚ.
-/

/-! ## Tokenization (shared by bleu.ts and cosine.ts, identical in both) -/

/-- Model of the JavaScript regex class `\w` = `[A-Za-z0-9_]` (ASCII only). -/
def isWordChar (c : Char) : Bool :=
  c.isAlphanum || c == '_'

/-- Splitting a character list on whitespace runs, dropping empty chunks.
Models `.split(/\s+/).filter((token) => token.length > 0)`. -/
def splitOnWhitespace : List Char → List Char → List String
  | [], cur => if cur.isEmpty then [] else [String.mk cur.reverse]
  | c :: cs, cur =>
    if c.isWhitespace then
      if cur.isEmpty then splitOnWhitespace cs []
      else String.mk cur.reverse :: splitOnWhitespace cs []
    else splitOnWhitespace cs (c :: cur)

/-- `tokenize` from bleu.ts / cosine.ts: lowercase, replace every character
that is neither a word character nor whitespace by a space, split on
whitespace, drop empty tokens. -/
def tokenize (text : String) : List String :=
  let cleaned := text.toList.map fun c =>
    let lc := c.toLower
    if isWordChar lc || lc.isWhitespace then lc else ' '
  splitOnWhitespace cleaned []

/-! ## BLEU scorer (src/jobs/worker/services/scoring/bleu.ts) -/

/-- `getNgrams`: contiguous n-grams joined with a single space. -/
def getNgrams (tokens : List String) (n : Nat) : List String :=
  if tokens.length < n then []
  else (List.range (tokens.length - n + 1)).map fun i =>
    " ".intercalate ((tokens.drop i).take n)

/-- `calculateClippedPrecision`: each candidate n-gram count is clipped by
the reference count; the sum of clipped counts is divided by the number of
candidate n-grams.  The source iterates over the distinct candidate n-grams
(the keys of `candCounts`); the sum does not depend on the iteration order,
so the distinct n-grams are enumerated here with `List.dedup`. -/
def calculateClippedPrecision (candidateNgrams referenceNgrams : List String) : ℚ :=
  let clippedCount := (candidateNgrams.dedup.map fun g =>
    min (candidateNgrams.count g) (referenceNgrams.count g)).sum
  (clippedCount : ℚ) / (candidateNgrams.length : ℚ)

/-- `calculateGeometricMean`: `exp(mean(log(values)))`, `0` for an empty list. -/
noncomputable def calculateGeometricMean (values : List ℝ) : ℝ :=
  if values.length = 0 then 0
  else Real.exp ((values.map Real.log).sum / (values.length : ℝ))

/-- `calculateBrevityPenalty`: `1` when the candidate is at least as long as
the reference, `exp(1 - r/c)` otherwise. -/
noncomputable def calculateBrevityPenalty (candidateLength referenceLength : Nat) : ℝ :=
  if referenceLength ≤ candidateLength then 1
  else Real.exp (1 - (referenceLength : ℝ) / (candidateLength : ℝ))

/-- One iteration of the precision loop of `calculateRawSmoothBleuScore`:
when there are no candidate n-grams of size `n`, or the clipped precision is
exactly `0`, the smoothed value `1/2^n` is pushed instead. -/
def smoothPrecisionAt (candidateTokens referenceTokens : List String) (n : Nat) : ℚ :=
  let candidateNgrams := getNgrams candidateTokens n
  let referenceNgrams := getNgrams referenceTokens n
  if candidateNgrams.length = 0 then 1 / 2 ^ n
  else
    let precision := calculateClippedPrecision candidateNgrams referenceNgrams
    if precision = 0 then 1 / 2 ^ n else precision

/-- The precision list built by the `for (let n = 1; n <= maxN; n++)` loop of
`calculateRawSmoothBleuScore` (one entry per n, in order). -/
def smoothPrecisions (candidateTokens referenceTokens : List String) (maxN : Nat) : List ℚ :=
  (List.range maxN).map fun k => smoothPrecisionAt candidateTokens referenceTokens (k + 1)

/-- `calculateRawSmoothBleuScore`: brevity penalty times the geometric mean of
the smoothed n-gram precisions; `0` when either token list is empty. -/
noncomputable def calculateRawSmoothBleuScore
    (candidate reference : String) (maxN : Nat) : ℝ :=
  let candidateTokens := tokenize candidate
  let referenceTokens := tokenize reference
  if candidateTokens.length = 0 ∨ referenceTokens.length = 0 then 0
  else
    calculateBrevityPenalty candidateTokens.length referenceTokens.length *
      calculateGeometricMean
        ((smoothPrecisions candidateTokens referenceTokens maxN).map fun q : ℚ => (q : ℝ))

/-- `normalizeWithSigmoid`: sigmoid redistribution of the raw score, linearly
rescaled so that the endpoints 0 and 1 map to exactly 0 and 1, then clamped. -/
noncomputable def normalizeWithSigmoid (rawScore midpoint steepness : ℝ) : ℝ :=
  let clampedScore := max 0 (min 1 rawScore)
  let sigmoid := 1 / (1 + Real.exp (-steepness * (clampedScore - midpoint)))
  let sigmoidAt0 := 1 / (1 + Real.exp (-steepness * ((0 : ℝ) - midpoint)))
  let sigmoidAt1 := 1 / (1 + Real.exp (-steepness * ((1 : ℝ) - midpoint)))
  let normalized := (sigmoid - sigmoidAt0) / (sigmoidAt1 - sigmoidAt0)
  max 0 (min 1 normalized)

/-- `calculateSmoothBleuScore` as invoked by the scoring aggregator
(`calculateScores`): default `maxN = 4`, default sigmoid midpoint `0.2` and
steepness `10`. -/
noncomputable def calculateSmoothBleuScore (candidate reference : String) : ℝ :=
  normalizeWithSigmoid (calculateRawSmoothBleuScore candidate reference 4) 0.2 10

/-! ## Cosine similarity scorer (src/jobs/worker/services/scoring/cosine.ts) -/

/-- Value computed by the index loop of `cosineSimilarity` (the loop runs on
`i < vec1.length`; out-of-range reads are modelled with default `0`, which
never happens on the equal-length vectors the guarded entry point passes in).
The source names: `dotProduct`, `norm1`, `norm2`, `denominator`. -/
noncomputable def cosineSimilarityValue (vec1 vec2 : List ℝ) : ℝ :=
  if Real.sqrt (∑ i ∈ Finset.range vec1.length, vec1.getD i 0 * vec1.getD i 0) *
      Real.sqrt (∑ i ∈ Finset.range vec1.length, vec2.getD i 0 * vec2.getD i 0) = 0 then 0
  else (∑ i ∈ Finset.range vec1.length, vec1.getD i 0 * vec2.getD i 0) /
    (Real.sqrt (∑ i ∈ Finset.range vec1.length, vec1.getD i 0 * vec1.getD i 0) *
      Real.sqrt (∑ i ∈ Finset.range vec1.length, vec2.getD i 0 * vec2.getD i 0))

/-- `cosineSimilarity`: throws (`Except.error`) when the two vectors have
different lengths, otherwise returns the cosine of the two vectors (`0` when
either norm is zero). -/
noncomputable def cosineSimilarity (vec1 vec2 : List ℝ) : Except String ℝ :=
  if vec1.length ≠ vec2.length then Except.error "Vectors must have same length"
  else Except.ok (cosineSimilarityValue vec1 vec2)

/-- `createTfVector`: raw term frequency of each vocabulary term, divided by
the total token count of the text. -/
def createTfVector (tokens vocabulary : List String) : List ℚ :=
  vocabulary.map fun term => (tokens.count term : ℚ) / (tokens.length : ℚ)

/-- `calculateTfIdfCosineSimilarity`: `0` when either text tokenizes to no
tokens; otherwise the cosine of the two term-frequency vectors over the
shared vocabulary.  The source builds the vocabulary as
`[...new Set([...tokens1, ...tokens2])]`; the resulting score does not depend
on the enumeration order of the distinct tokens, which is modelled with
`List.dedup`.  Both vectors have the vocabulary's length, so the
length-mismatch branch of `cosineSimilarity` is unreachable here and the
call is modelled by `cosineSimilarityValue` directly. -/
noncomputable def calculateTfIdfCosineSimilarity (text1 text2 : String) : ℝ :=
  let tokens1 := tokenize text1
  let tokens2 := tokenize text2
  if tokens1.length = 0 ∨ tokens2.length = 0 then 0
  else
    let vocabulary := (tokens1 ++ tokens2).dedup
    cosineSimilarityValue
      ((createTfVector tokens1 vocabulary).map fun q : ℚ => (q : ℝ))
      ((createTfVector tokens2 vocabulary).map fun q : ℚ => (q : ℝ))

/-- `calculateEmbeddingCosineSimilarity`: request an embedding for each text
(`generateEmbedding` models the embedding provider, which either returns a
vector or throws), compute the vector cosine, and on ANY thrown error —
embedding failure or vector mismatch — fall back to the TF-IDF cosine of the
same two texts.  The `Except`-valued result models the async function's
resolved/rejected promise; the catch-all means it always resolves. -/
noncomputable def calculateEmbeddingCosineSimilarity
    (generateEmbedding : String → Except String (List ℝ))
    (text1 text2 : String) : Except String ℝ :=
  match generateEmbedding text1 with
  | Except.error _ => Except.ok (calculateTfIdfCosineSimilarity text1 text2)
  | Except.ok embedding1 =>
    match generateEmbedding text2 with
    | Except.error _ => Except.ok (calculateTfIdfCosineSimilarity text1 text2)
    | Except.ok embedding2 =>
      match cosineSimilarity embedding1 embedding2 with
      | Except.error _ => Except.ok (calculateTfIdfCosineSimilarity text1 text2)
      | Except.ok similarity => Except.ok similarity

/-! ## LLM-as-judge scorer (src/jobs/worker/services/scoring/llm-judge.ts)

The judge model's raw output is a string; the JavaScript regex engine and
`JSON.parse` are external builtins and are modelled as parameters describing
their outcome on that string:
 * `JsonExtract` — the outcome of matching `/\{[\s\S]*\}/` and JSON-parsing
   the matched span, restricted to the fields `parseJudgeResponse` reads;
 * the pattern-scan list — for each score regex that matches the text, in
   pattern order, the numeric value parsed from its first capture group
   (a capture that parses to NaN never passes the range check, exactly like
   an out-of-range value, so such captures are dropped from the list). -/

/-- The `score` field of the parsed judge JSON as `parseJudgeResponse` sees
it: a JSON number, a JSON string (with the result of `parseFloat`, `none`
standing for NaN), or absent / some other type. -/
inductive JsonScoreField
  | num (value : ℚ)
  | str (parsed : Option ℚ)
  | missing

/-- The fields of the first `{...}` span of the judge output, after
`JSON.parse`.  `breakdownNums` holds the numeric values of the `breakdown`
object (in key order) when a `breakdown` object is present. -/
structure JudgeJson where
  score : JsonScoreField
  breakdownNums : Option (List ℚ)
  reason : String

/-- Outcome of `text.match(/\{[\s\S]*\}/)` followed by `JSON.parse`. -/
inductive JsonExtract
  | noMatch
  | parseError
  | parsed (j : JudgeJson)

/-- Result type of the judge scorer (`LlmJudgeResult`). -/
structure LlmJudgeResult where
  score : ℚ
  reason : String
deriving DecidableEq, Repr

/-- `extractScoreFromText`: scan the score patterns in order and return the
first captured value lying in `[0,1]`; otherwise the neutral fallback
`{score: 0.5, reason: "Could not parse evaluation. Response: " + first 200
characters of the text}`. -/
def extractScoreFromText (patternMatches : List ℚ) (text : String) : LlmJudgeResult :=
  match patternMatches.find? fun s => decide (0 ≤ s) && decide (s ≤ 1) with
  | some score => { score := score, reason := text.take 200 }
  | none =>
    { score := 1 / 2
      reason := "Could not parse evaluation. Response: " ++ text.take 200 }

/-- The `breakdown` fallback of `parseJudgeResponse`: average of the numeric
breakdown values when there are any, `0.5` otherwise. -/
def breakdownScore : Option (List ℚ) → ℚ
  | some values => if values.length = 0 then 1 / 2 else values.sum / (values.length : ℚ)
  | none => 1 / 2

/-- `parseJudgeResponse`: when no JSON span is found or parsing throws, fall
back to `extractScoreFromText`; otherwise coerce the `score` field (string
scores via `parseFloat`, non-numbers via the breakdown average, `0.5` as the
last resort) and clamp it into `[0,1]`. -/
def parseJudgeResponse (extract : JsonExtract) (patternMatches : List ℚ)
    (text : String) : LlmJudgeResult :=
  match extract with
  | JsonExtract.noMatch => extractScoreFromText patternMatches text
  | JsonExtract.parseError => extractScoreFromText patternMatches text
  | JsonExtract.parsed j =>
    let score : ℚ :=
      match j.score with
      | JsonScoreField.num value => value
      | JsonScoreField.str (some value) => value
      | JsonScoreField.str none => breakdownScore j.breakdownNums
      | JsonScoreField.missing => breakdownScore j.breakdownNums
    { score := max 0 (min 1 score), reason := j.reason }

/-- `calculateLlmJudgeScore`: on a provider/network error the catch block
returns the neutral score with an explanatory reason; on success the raw
judge output is parsed by `parseJudgeResponse`.  `providerResult` models the
`generateText` call; `extractOf` and `patternsOf` model the JavaScript JSON
and regex engines applied to the returned text. -/
def calculateLlmJudgeScore (providerResult : Except String String)
    (extractOf : String → JsonExtract) (patternsOf : String → List ℚ) :
    LlmJudgeResult :=
  match providerResult with
  | Except.error errorMessage =>
    { score := 1 / 2
      reason := "Evaluation failed: " ++ errorMessage ++ ". Defaulting to neutral score." }
  | Except.ok text => parseJudgeResponse (extractOf text) (patternsOf text) text

/-! ## Test-run orchestrator (src/jobs/worker/index.ts, types.ts)

The persistence layer, the two answer-generation transports and the scoring
aggregator's network-bound body are external collaborators at this level;
they are modelled as oracle parameters returning `Except` (resolved or
rejected promise).  JavaScript string truthiness (`null` and `""` are falsy)
is modelled explicitly. -/

/-- JS truthiness of a nullable string: `null` and `""` are falsy. -/
def truthy : Option String → Bool
  | none => false
  | some s => !(s == "")

/-- JS `s.trim() === ""`: a string trims to empty exactly when every one of
its characters is whitespace (`String.trim` itself is not computable by
kernel reduction, so the blank test is modelled by this equivalent form). -/
def trimIsEmpty (s : String) : Bool :=
  s.toList.all Char.isWhitespace

/-- JS `s && s.trim() !== ""` for a nullable string `s`. -/
def presentNonBlank : Option String → Bool
  | none => false
  | some s => !(s == "") && !(trimIsEmpty s)

/-- JS `s || d` for a nullable string: the default replaces `null` and `""`. -/
def jsOrElse (s : Option String) (d : String) : String :=
  match s with
  | none => d
  | some t => if t == "" then d else t

/-- `TestRunResultStatus` from types.ts (the `RUNNNING` typo is the source's). -/
inductive TestRunResultStatus
  | PENDING
  | RUNNNING
  | COMPLETED
  | FAILED
deriving DecidableEq, Repr

/-- `TestCaseData` from types.ts. -/
structure TestCaseData where
  id : String
  questionText : Option String
  questionAudioPath : Option String
  questionImagePath : Option String
  expectedAnswer : String

/-- `TestContextData` (= `ContextData`) from types.ts. -/
structure TestContextData where
  id : String
  name : String
  text : Option String
  filePath : Option String

/-- The suite relation loaded by `fetchTestRunWithRelations`. -/
structure TestSuiteData where
  name : String
  testCases : List TestCaseData
  contexts : List TestContextData

/-- `TestRunWithRelations`: the run row plus its suite with cases and
contexts. -/
structure TestRunWithRelations where
  id : String
  llmModel : String
  prompt : String
  temperature : ℚ
  topP : ℚ
  topK : ℚ
  suite : TestSuiteData

/-- `TestRunResultInput` from types.ts (shape of one persisted result row). -/
structure TestRunResultInput where
  runId : String
  caseId : String
  status : TestRunResultStatus
  failReason : Option String
  answer : String
  bleuScore : ℝ
  cosineSimScore : ℝ
  llmScore : ℝ
  llmScoreReason : String

/-- `ScoreResult` from types.ts. -/
structure ScoreResult where
  bleu : ℝ
  cosine : ℝ
  llmScore : ℝ
  llmReason : String

/-- `ScoreInput` from types.ts. -/
structure ScoreInput where
  generatedAnswer : String
  expectedAnswer : String
  question : String
  model : String

/-- Result of `generateAnswerRealtime` (services/realtime). -/
structure RealtimeResult where
  answer : String
  inputTranscript : Option String
  durationMs : Nat

/-- Parameters of `generateAnswerRealtime` as called by the orchestrator. -/
structure RealtimeParams where
  prompt : String
  context : String
  questionText : Option String
  questionAudioPath : Option String

/-- `LLMGenerateParams` from types.ts. -/
structure LLMGenerateParams where
  model : String
  prompt : String
  question : String
  context : String
  temperature : ℚ
  topP : ℚ
  topK : ℚ

/-- The network-bound collaborators of one case pipeline: the realtime
transport, the request/response text transport, and the scoring aggregator
(whose own network calls make it fallible at this level).  Each returns a
resolved value or a thrown error. -/
structure GenerationOracles where
  generateAnswerRealtime : RealtimeParams → Except String RealtimeResult
  generateAnswer : LLMGenerateParams → Except String String
  calculateScoresOracle : ScoreInput → Except String ScoreResult

/-- `LLM_CONCURRENCY` from src/jobs/worker/index.ts: the cap handed to
`pLimit` when fanning out over the test cases. -/
def LLM_CONCURRENCY : Nat := 3

/-- `getQuestionText`: prefer `questionText`, else a bracketed audio/image
placeholder, else the no-question placeholder (plain JS truthiness). -/
def getQuestionText (testCase : TestCaseData) : String :=
  if truthy testCase.questionText then testCase.questionText.getD ""
  else if truthy testCase.questionAudioPath then
    "[Audio: " ++ testCase.questionAudioPath.getD "" ++ "]"
  else if truthy testCase.questionImagePath then
    "[Image: " ++ testCase.questionImagePath.getD "" ++ "]"
  else "[No question provided]"

/-- Input type of a test case. -/
inductive InputType
  | text
  | audio
  | none
deriving DecidableEq, Repr

/-- `getInputType`: audio wins when `questionAudioPath` is present and
non-blank, then text; everything else — including an image-only case — is
`none`. -/
def getInputType (testCase : TestCaseData) : InputType :=
  if presentNonBlank testCase.questionAudioPath then InputType.audio
  else if presentNonBlank testCase.questionText then InputType.text
  else InputType.none

/-- `modelConfig?.textTransport || "vercel"`: no entry of the `LLMS` table in
src/utils/constants.ts declares a `textTransport` field, so the lookup is
always `undefined` and the selected text transport is always `"vercel"`. -/
def selectedTextTransport (_llmModel : String) : String := "vercel"

/-- The answer-generation phase of `processTestCase`: returns the generated
answer together with `questionForScoring`, or the thrown error. -/
def generationPhase (o : GenerationOracles) (testRun : TestRunWithRelations)
    (testCase : TestCaseData) (contextData : String) :
    Except String (String × String) :=
  let questionDisplay := getQuestionText testCase
  if getInputType testCase = InputType.audio then
    match o.generateAnswerRealtime
        ⟨testRun.prompt, contextData, testCase.questionText,
          testCase.questionAudioPath⟩ with
    | Except.error e => Except.error e
    | Except.ok result =>
      Except.ok (result.answer, jsOrElse result.inputTranscript questionDisplay)
  else
    if selectedTextTransport testRun.llmModel = "realtime" then
      match o.generateAnswerRealtime
          ⟨testRun.prompt, contextData, testCase.questionText, none⟩ with
      | Except.error e => Except.error e
      | Except.ok result =>
        Except.ok (result.answer, jsOrElse testCase.questionText questionDisplay)
    else
      if !(truthy testCase.questionText) ||
          trimIsEmpty (testCase.questionText.getD "") then
        Except.error "Text test case is missing questionText"
      else
        match o.generateAnswer
            ⟨testRun.llmModel, testRun.prompt, testCase.questionText.getD "",
              contextData, testRun.temperature, testRun.topP, testRun.topK⟩ with
        | Except.error e => Except.error e
        | Except.ok answer => Except.ok (answer, testCase.questionText.getD "")

/-- `processTestCase`: reject a case with no text/audio question, generate
the answer, score it, and build the `COMPLETED` result row. -/
def processTestCase (o : GenerationOracles) (testRun : TestRunWithRelations)
    (testCase : TestCaseData) (contextData : String) :
    Except String TestRunResultInput :=
  if getInputType testCase = InputType.none then
    Except.error "Test case has no question (text or audio)"
  else
    match generationPhase o testRun testCase contextData with
    | Except.error e => Except.error e
    | Except.ok (answer, questionForScoring) =>
      match o.calculateScoresOracle
          ⟨answer, testCase.expectedAnswer, questionForScoring,
            testRun.llmModel⟩ with
      | Except.error e => Except.error e
      | Except.ok scores =>
        Except.ok
          { runId := testRun.id
            caseId := testCase.id
            status := TestRunResultStatus.COMPLETED
            failReason := none
            answer := answer
            bleuScore := scores.bleu
            cosineSimScore := scores.cosine
            llmScore := scores.llmScore
            llmScoreReason := scores.llmReason }

/-- `processTestCaseSafe`: the per-case fault boundary.  Its TypeScript
signature admits `null`, but both branches return a record: the success row,
or — when `processTestCase` threw — a `FAILED` row carrying the exception
message.  The `index` parameter is only used for logging in the source. -/
def processTestCaseSafe (o : GenerationOracles) (testRun : TestRunWithRelations)
    (testCase : TestCaseData) (contextData : String) (index : Nat) :
    Option TestRunResultInput :=
  match processTestCase o testRun testCase contextData with
  | Except.ok result => some result
  | Except.error errorMessage =>
    some
      { runId := testRun.id
        caseId := testCase.id
        status := TestRunResultStatus.FAILED
        failReason := some errorMessage
        answer := "[ERROR] " ++ errorMessage
        bleuScore := 0
        cosineSimScore := 0
        llmScore := 0
        llmScoreReason := "Processing failed: " ++ errorMessage }

/-- One iteration of the `loadContexts` loop (services/pdf, re-exported via
services/realtime): the text part when `ctx.text` is truthy, then the file
part; a file-load failure is caught per document and replaced by an inline
error marker (parts pushed before the throw are kept).  `loadFile` models
`loadFileAsText` (file-system I/O). -/
def loadContextParts (loadFile : String → Except String String)
    (ctx : TestContextData) : List String :=
  let textParts :=
    match ctx.text with
    | none => []
    | some t => if t == "" then [] else ["[Text Context]\n" ++ t]
  match ctx.filePath with
  | none => textParts
  | some fp =>
    if fp == "" then textParts
    else
      match loadFile fp with
      | Except.ok content => textParts ++ ["[File: " ++ fp ++ "]\n" ++ content]
      | Except.error errorMessage =>
        textParts ++ ["[Error loading context " ++ ctx.id ++ "]: " ++ errorMessage]

/-- `loadContexts`: every document contributes its parts (or its error
marker); the parts are joined with the `---` delimiter.  Total: a bad
document never makes the whole load throw. -/
def loadContexts (loadFile : String → Except String String)
    (contexts : List TestContextData) : String :=
  "\n\n---\n\n".intercalate (contexts.map (loadContextParts loadFile)).flatten

/-- Effects of one orchestrator run: the rows handed to
`testRunResult.createMany` and whether `completedAt` was set. -/
structure RunEffects where
  savedResults : List TestRunResultInput
  completedAtSet : Bool

/-- `processTestRun`: abort when the fetch returns no run; otherwise load
the contexts once, process every case through the fault boundary under the
`pLimit(LLM_CONCURRENCY)` fan-out (`Promise.all` keeps one slot per case, in
input order), filter out `null` rows (there are none), bulk-save, and set
`completedAt`.  `fetched` models the result of `fetchTestRunWithRelations`. -/
def processTestRun (o : GenerationOracles)
    (loadFile : String → Except String String)
    (fetched : Option TestRunWithRelations) (testRunId : String) :
    Except String RunEffects :=
  match fetched with
  | none => Except.error ("TestRun not found: " ++ testRunId)
  | some testRun =>
    let contextData := loadContexts loadFile testRun.suite.contexts
    let results := testRun.suite.testCases.enum.map fun p =>
      processTestCaseSafe o testRun p.2 contextData p.1
    let validResults := results.filterMap id
    Except.ok { savedResults := validResults, completedAtSet := true }

/-! ## Lemmas about the BLEU scorer -/

/-- Number of n-grams of a list long enough to have some. -/
theorem getNgrams_length (tokens : List String) (n : Nat) (h : n ≤ tokens.length) :
    (getNgrams tokens n).length = tokens.length - n + 1 := by
  unfold getNgrams
  rw [if_neg (by omega)]
  simp

/-- Clipped precision of a nonempty n-gram list against itself is `1`. -/
theorem clippedPrecision_self (g : List String) (h : g.length ≠ 0) :
    calculateClippedPrecision g g = 1 := by
  unfold calculateClippedPrecision
  simp only [min_self, List.sum_map_count_dedup_eq_length]
  exact div_self (by exact_mod_cast h)

/-- Each smoothed precision of a token list against itself is `1` when the
list has at least `n` tokens. -/
theorem smoothPrecisionAt_self (t : List String) (n : Nat) (h : n ≤ t.length) :
    smoothPrecisionAt t t n = 1 := by
  unfold smoothPrecisionAt
  have hlen : (getNgrams t n).length = t.length - n + 1 := getNgrams_length t n h
  rw [if_neg (by omega)]
  rw [clippedPrecision_self _ (by omega)]
  norm_num

/-- For a self-comparison with at least four tokens, the smoothed precision
list is `[1, 1, 1, 1]`. -/
theorem smoothPrecisions_self (t : List String) (h : 4 ≤ t.length) :
    smoothPrecisions t t 4 = [1, 1, 1, 1] := by
  unfold smoothPrecisions
  have h1 := smoothPrecisionAt_self t 1 (by omega)
  have h2 := smoothPrecisionAt_self t 2 (by omega)
  have h3 := smoothPrecisionAt_self t 3 (by omega)
  have h4 := smoothPrecisionAt_self t 4 (by omega)
  simp [List.range_succ, h1, h2, h3, h4]

/-- The raw smoothed BLEU score of a text with at least four tokens against
itself is exactly `1`: brevity penalty `1` times the geometric mean of
`[1, 1, 1, 1]`. -/
theorem rawSmoothBleu_self (x : String) (h : 4 ≤ (tokenize x).length) :
    calculateRawSmoothBleuScore x x 4 = 1 := by
  unfold calculateRawSmoothBleuScore
  rw [if_neg (by omega)]
  rw [smoothPrecisions_self _ h]
  unfold calculateBrevityPenalty calculateGeometricMean
  rw [if_pos le_rfl]
  norm_num [Real.log_one, Real.exp_zero]

/-- The sigmoid redistribution is anchored so that a raw score of exactly `1`
maps to exactly `1`. -/
theorem normalizeWithSigmoid_one : normalizeWithSigmoid 1 0.2 10 = 1 := by
  unfold normalizeWithSigmoid
  have hclamp : max (0 : ℝ) (min 1 1) = 1 := by norm_num
  simp only [hclamp]
  have hexp : Real.exp (-10 * ((1 : ℝ) - 0.2)) < Real.exp (-10 * ((0 : ℝ) - 0.2)) :=
    Real.exp_lt_exp.mpr (by norm_num)
  have hpos1 : (0 : ℝ) < 1 + Real.exp (-10 * ((1 : ℝ) - 0.2)) := by positivity
  have hpos0 : (0 : ℝ) < 1 + Real.exp (-10 * ((0 : ℝ) - 0.2)) := by positivity
  have hlt : 1 / (1 + Real.exp (-10 * ((0 : ℝ) - 0.2))) <
      1 / (1 + Real.exp (-10 * ((1 : ℝ) - 0.2))) :=
    one_div_lt_one_div_of_lt hpos1 (by linarith)
  rw [div_self (sub_ne_zero.mpr (ne_of_gt hlt))]
  norm_num

/-- Claim C7: for every string that tokenizes to at least four tokens, the
pipeline's BLEU score (`calculateSmoothBleuScore`, sigmoid-normalized smooth
BLEU with `maxN = 4`) of the string against itself is exactly `1`. -/
theorem bleu_self_score_eq_one (x : String) (h : 4 ≤ (tokenize x).length) :
    calculateSmoothBleuScore x x = 1 := by
  unfold calculateSmoothBleuScore
  rw [rawSmoothBleu_self x h]
  exact normalizeWithSigmoid_one

/-- Witness for C7 at the concrete four-token input `"a b c d"`. -/
theorem bleu_self_score_eq_one_witness :
    4 ≤ (tokenize "a b c d").length ∧
      calculateSmoothBleuScore "a b c d" "a b c d" = 1 :=
  ⟨by decide, bleu_self_score_eq_one "a b c d" (by decide)⟩

/-- The clipped precision is `0` exactly when the total clipped count (a
natural number) is `0`; this lets concrete instances be checked by kernel
computation on naturals. -/
theorem clippedPrecision_eq_zero (c r : List String)
    (h : (c.dedup.map fun g => min (c.count g) (r.count g)).sum = 0) :
    calculateClippedPrecision c r = 0 := by
  unfold calculateClippedPrecision
  rw [h]
  norm_num

/-- Claim C8: in the smoothed BLEU scorer used by the pipeline, whenever the
clipped precision at some n-gram size `n` in `1..maxN` is exactly `0`, the
precision list entry for `n` is the smoothed value `1/2^n` instead of `0`,
and the score is the brevity penalty times the geometric mean taken over
that (smoothed) precision list. -/
theorem bleu_zero_precision_smoothed (candidate reference : String) (maxN n : Nat)
    (h1 : 1 ≤ n) (h2 : n ≤ maxN)
    (h0 : calculateClippedPrecision (getNgrams (tokenize candidate) n)
        (getNgrams (tokenize reference) n) = 0) :
    (smoothPrecisions (tokenize candidate) (tokenize reference) maxN).getD (n - 1) 0
        = 1 / 2 ^ n ∧
    (tokenize candidate ≠ [] → tokenize reference ≠ [] →
      calculateRawSmoothBleuScore candidate reference maxN =
        calculateBrevityPenalty (tokenize candidate).length
            (tokenize reference).length *
          calculateGeometricMean ((smoothPrecisions (tokenize candidate)
            (tokenize reference) maxN).map fun q : ℚ => (q : ℝ))) := by
  constructor
  · unfold smoothPrecisions
    have hidx : n - 1 < maxN := by omega
    rw [List.getD_eq_getElem?_getD, List.getElem?_map, List.getElem?_range hidx]
    have hn : n - 1 + 1 = n := by omega
    simp only [Option.map_some', Option.getD_some, hn]
    unfold smoothPrecisionAt
    by_cases hc : (getNgrams (tokenize candidate) n).length = 0
    · rw [if_pos hc]
    · simp only [if_neg hc, if_pos h0]
  · intro hc hr
    unfold calculateRawSmoothBleuScore
    rw [if_neg]
    simp only [List.length_eq_zero, not_or]
    exact ⟨hc, hr⟩

/-- Witness for C8: candidate `"a a a a"` shares no 1-gram with reference
`"b b b b"`, so the 1-gram clipped precision is `0` and the first precision
entry is `1/2`. -/
theorem bleu_zero_precision_smoothed_witness :
    calculateClippedPrecision (getNgrams (tokenize "a a a a") 1)
        (getNgrams (tokenize "b b b b") 1) = 0 ∧
      (smoothPrecisions (tokenize "a a a a") (tokenize "b b b b") 4).getD 0 0
        = 1 / 2 ^ 1 :=
  ⟨clippedPrecision_eq_zero _ _ (by decide),
    (bleu_zero_precision_smoothed "a a a a" "b b b b" 4 1 (by decide) (by decide)
      (clippedPrecision_eq_zero _ _ (by decide))).1⟩

/-! ## Lemmas about the cosine scorer -/

/-- Reading any index of a componentwise-nonnegative vector (default `0`)
yields a nonnegative value. -/
theorem getD_nonneg {v : List ℝ} (h : ∀ x ∈ v, 0 ≤ x) (i : Nat) : 0 ≤ v.getD i 0 := by
  rcases Nat.lt_or_ge i v.length with hi | hi
  · rw [List.getD_eq_getElem?_getD, List.getElem?_eq_getElem hi]
    exact h _ (List.getElem_mem hi)
  · rw [List.getD_eq_getElem?_getD, List.getElem?_eq_none hi]
    simp

/-- Cauchy–Schwarz: the vector cosine never exceeds `1`, for arbitrary
vectors. -/
theorem cosineSimilarityValue_le_one (vec1 vec2 : List ℝ) :
    cosineSimilarityValue vec1 vec2 ≤ 1 := by
  unfold cosineSimilarityValue
  by_cases hd :
      Real.sqrt (∑ i ∈ Finset.range vec1.length, vec1.getD i 0 * vec1.getD i 0) *
        Real.sqrt (∑ i ∈ Finset.range vec1.length, vec2.getD i 0 * vec2.getD i 0) = 0
  · rw [if_pos hd]; norm_num
  · rw [if_neg hd]
    have hnn : (0 : ℝ) ≤
        Real.sqrt (∑ i ∈ Finset.range vec1.length, vec1.getD i 0 * vec1.getD i 0) *
          Real.sqrt (∑ i ∈ Finset.range vec1.length, vec2.getD i 0 * vec2.getD i 0) :=
      mul_nonneg (Real.sqrt_nonneg _) (Real.sqrt_nonneg _)
    rw [div_le_one (lt_of_le_of_ne hnn (Ne.symm hd))]
    have hcs := Real.sum_mul_le_sqrt_mul_sqrt (Finset.range vec1.length)
      (fun i => vec1.getD i 0) (fun i => vec2.getD i 0)
    simpa [pow_two] using hcs

/-- Cauchy–Schwarz from the other side: the vector cosine is never below
`-1`. -/
theorem neg_one_le_cosineSimilarityValue (vec1 vec2 : List ℝ) :
    -1 ≤ cosineSimilarityValue vec1 vec2 := by
  unfold cosineSimilarityValue
  by_cases hd :
      Real.sqrt (∑ i ∈ Finset.range vec1.length, vec1.getD i 0 * vec1.getD i 0) *
        Real.sqrt (∑ i ∈ Finset.range vec1.length, vec2.getD i 0 * vec2.getD i 0) = 0
  · rw [if_pos hd]; norm_num
  · rw [if_neg hd]
    have hnn : (0 : ℝ) ≤
        Real.sqrt (∑ i ∈ Finset.range vec1.length, vec1.getD i 0 * vec1.getD i 0) *
          Real.sqrt (∑ i ∈ Finset.range vec1.length, vec2.getD i 0 * vec2.getD i 0) :=
      mul_nonneg (Real.sqrt_nonneg _) (Real.sqrt_nonneg _)
    rw [le_div_iff₀ (lt_of_le_of_ne hnn (Ne.symm hd))]
    have hcs := Real.sum_mul_le_sqrt_mul_sqrt (Finset.range vec1.length)
      (fun i => -(vec1.getD i 0)) (fun i => vec2.getD i 0)
    have hneg : -(∑ i ∈ Finset.range vec1.length, vec1.getD i 0 * vec2.getD i 0) ≤
        Real.sqrt (∑ i ∈ Finset.range vec1.length, vec1.getD i 0 * vec1.getD i 0) *
          Real.sqrt (∑ i ∈ Finset.range vec1.length, vec2.getD i 0 * vec2.getD i 0) := by
      simpa [pow_two, Finset.sum_neg_distrib] using hcs
    linarith

/-- For componentwise-nonnegative vectors the cosine is nonnegative. -/
theorem cosineSimilarityValue_nonneg (vec1 vec2 : List ℝ)
    (h1 : ∀ x ∈ vec1, 0 ≤ x) (h2 : ∀ x ∈ vec2, 0 ≤ x) :
    0 ≤ cosineSimilarityValue vec1 vec2 := by
  unfold cosineSimilarityValue
  by_cases hd :
      Real.sqrt (∑ i ∈ Finset.range vec1.length, vec1.getD i 0 * vec1.getD i 0) *
        Real.sqrt (∑ i ∈ Finset.range vec1.length, vec2.getD i 0 * vec2.getD i 0) = 0
  · rw [if_pos hd]
  · rw [if_neg hd]
    exact div_nonneg
      (Finset.sum_nonneg fun i _ => mul_nonneg (getD_nonneg h1 i) (getD_nonneg h2 i))
      (mul_nonneg (Real.sqrt_nonneg _) (Real.sqrt_nonneg _))

/-- Every entry of a term-frequency vector is nonnegative. -/
theorem createTfVector_nonneg (tokens vocabulary : List String) :
    ∀ q ∈ createTfVector tokens vocabulary, 0 ≤ q := by
  intro q hq
  unfold createTfVector at hq
  obtain ⟨term, -, rfl⟩ := List.mem_map.mp hq
  positivity

/-- Every entry of a cast term-frequency vector is nonnegative. -/
theorem createTfVector_cast_nonneg (tokens vocabulary : List String) :
    ∀ x ∈ (createTfVector tokens vocabulary).map (fun q : ℚ => (q : ℝ)), 0 ≤ x := by
  intro x hx
  obtain ⟨q, hq, rfl⟩ := List.mem_map.mp hx
  exact_mod_cast createTfVector_nonneg tokens vocabulary q hq

/-- The TF-IDF cosine score always lies in `[0, 1]`. -/
theorem tfidf_score_in_unit (text1 text2 : String) :
    0 ≤ calculateTfIdfCosineSimilarity text1 text2 ∧
      calculateTfIdfCosineSimilarity text1 text2 ≤ 1 := by
  unfold calculateTfIdfCosineSimilarity
  by_cases h : (tokenize text1).length = 0 ∨ (tokenize text2).length = 0
  · rw [if_pos h]; norm_num
  · rw [if_neg h]
    exact ⟨cosineSimilarityValue_nonneg _ _
        (createTfVector_cast_nonneg _ _) (createTfVector_cast_nonneg _ _),
      cosineSimilarityValue_le_one _ _⟩

/-- Claim C3: whenever either embedding request throws, the semantic scorer
resolves (never rejects) with exactly the TF-IDF cosine of the same two
texts. -/
theorem embedding_fallback_eq_tfidf (generateEmbedding : String → Except String (List ℝ))
    (text1 text2 : String)
    (h : (∃ e, generateEmbedding text1 = Except.error e) ∨
      (∃ e, generateEmbedding text2 = Except.error e)) :
    calculateEmbeddingCosineSimilarity generateEmbedding text1 text2 =
      Except.ok (calculateTfIdfCosineSimilarity text1 text2) := by
  rcases h with ⟨e, he⟩ | ⟨e, he⟩
  · simp [calculateEmbeddingCosineSimilarity, he]
  · cases hg : generateEmbedding text1 <;>
      simp [calculateEmbeddingCosineSimilarity, hg, he]

/-- Witness for C3: a provider that always throws. -/
theorem embedding_fallback_eq_tfidf_witness :
    calculateEmbeddingCosineSimilarity (fun _ => Except.error "connect ECONNREFUSED")
        "hello world" "hello there" =
      Except.ok (calculateTfIdfCosineSimilarity "hello world" "hello there") :=
  embedding_fallback_eq_tfidf _ _ _ (Or.inl ⟨"connect ECONNREFUSED", rfl⟩)

/-- Counterexample to C4 as stated: a provider returning vectors of lengths
1 and 2 does NOT make the semantic scorer signal an error — the scorer
resolves with the TF-IDF fallback, because the catch-all of
`calculateEmbeddingCosineSimilarity` also catches the mismatch error thrown
by `cosineSimilarity`. -/
theorem mismatch_not_signalled_counterexample :
    ¬ (∀ (generateEmbedding : String → Except String (List ℝ))
        (text1 text2 : String) (v1 v2 : List ℝ),
        generateEmbedding text1 = Except.ok v1 →
        generateEmbedding text2 = Except.ok v2 →
        v1.length ≠ v2.length →
        ∃ e, calculateEmbeddingCosineSimilarity generateEmbedding text1 text2 =
          Except.error e) := by
  intro hclaim
  obtain ⟨e, he⟩ := hclaim
    (fun t => if t == "a" then Except.ok [1] else Except.ok [1, 0])
    "a" "b" [1] [1, 0] rfl rfl (by decide)
  have hok : calculateEmbeddingCosineSimilarity
      (fun t => if t == "a" then Except.ok [1] else Except.ok [1, 0]) "a" "b" =
      Except.ok (calculateTfIdfCosineSimilarity "a" "b") := by
    simp [calculateEmbeddingCosineSimilarity, cosineSimilarity]
  rw [hok] at he
  exact Except.noConfusion he

/-- Claim C4 amended: the low-level vector routine `cosineSimilarity` does
signal mismatched dimensionality as a hard error, but the semantic scorer's
catch-all converts that error into the TF-IDF fallback, so the mismatch is
handled silently at the scorer boundary. -/
theorem mismatch_error_internal_fallback :
    (∀ v1 v2 : List ℝ, v1.length ≠ v2.length →
      cosineSimilarity v1 v2 = Except.error "Vectors must have same length") ∧
    (∀ (generateEmbedding : String → Except String (List ℝ))
        (text1 text2 : String) (v1 v2 : List ℝ),
      generateEmbedding text1 = Except.ok v1 →
      generateEmbedding text2 = Except.ok v2 →
      v1.length ≠ v2.length →
      calculateEmbeddingCosineSimilarity generateEmbedding text1 text2 =
        Except.ok (calculateTfIdfCosineSimilarity text1 text2)) := by
  constructor
  · intro v1 v2 h
    unfold cosineSimilarity
    rw [if_pos h]
  · intro gen text1 text2 v1 v2 h1 h2 hne
    simp [calculateEmbeddingCosineSimilarity, h1, h2, cosineSimilarity, hne]

/-- Witness for the amended C4 at concrete vectors `[1]` and `[1, 0]`. -/
theorem mismatch_error_internal_fallback_witness :
    cosineSimilarity [(1 : ℝ)] [1, 0] = Except.error "Vectors must have same length" ∧
    calculateEmbeddingCosineSimilarity
        (fun t => if t == "a" then Except.ok [(1 : ℝ)] else Except.ok [1, 0]) "a" "b" =
      Except.ok (calculateTfIdfCosineSimilarity "a" "b") :=
  ⟨mismatch_error_internal_fallback.1 [1] [1, 0] (by decide),
    mismatch_error_internal_fallback.2 _ "a" "b" [1] [1, 0] rfl rfl (by decide)⟩

/-- Counterexample to C5 as stated: the embedding strategy can return a
score outside `[0, 1]` — for provider vectors `[1]` and `[-1]` it resolves
with exactly `-1`. -/
theorem embedding_score_negative_counterexample :
    calculateEmbeddingCosineSimilarity
        (fun t => if t == "a" then Except.ok [(1 : ℝ)] else Except.ok [-1]) "a" "b" =
      Except.ok (-1) ∧ (-1 : ℝ) < 0 := by
  refine ⟨?_, by norm_num⟩
  have hval : cosineSimilarityValue [(1 : ℝ)] [-1] = -1 := by
    unfold cosineSimilarityValue
    norm_num [Finset.sum_range_one]
  simp [calculateEmbeddingCosineSimilarity, cosineSimilarity, hval]

/-- Claim C5 amended: the TF-IDF strategy always returns a score in `[0,1]`,
while the embedding strategy always resolves with a score in `[-1,1]` (it
can be negative, per the counterexample, since embedding vectors may have
negative components). -/
theorem similarity_score_bounds :
    (∀ text1 text2 : String,
      0 ≤ calculateTfIdfCosineSimilarity text1 text2 ∧
        calculateTfIdfCosineSimilarity text1 text2 ≤ 1) ∧
    (∀ (generateEmbedding : String → Except String (List ℝ)) (text1 text2 : String),
      ∃ s, calculateEmbeddingCosineSimilarity generateEmbedding text1 text2 =
          Except.ok s ∧ -1 ≤ s ∧ s ≤ 1) := by
  refine ⟨tfidf_score_in_unit, ?_⟩
  intro gen text1 text2
  have htf := tfidf_score_in_unit text1 text2
  cases hg1 : gen text1 with
  | error e =>
    exact ⟨calculateTfIdfCosineSimilarity text1 text2,
      by simp [calculateEmbeddingCosineSimilarity, hg1], by linarith [htf.1], htf.2⟩
  | ok v1 =>
    cases hg2 : gen text2 with
    | error e =>
      exact ⟨calculateTfIdfCosineSimilarity text1 text2,
        by simp [calculateEmbeddingCosineSimilarity, hg1, hg2], by linarith [htf.1], htf.2⟩
    | ok v2 =>
      by_cases hl : v1.length ≠ v2.length
      · exact ⟨calculateTfIdfCosineSimilarity text1 text2,
          by simp [calculateEmbeddingCosineSimilarity, hg1, hg2, cosineSimilarity, hl],
          by linarith [htf.1], htf.2⟩
      · exact ⟨cosineSimilarityValue v1 v2,
          by simp [calculateEmbeddingCosineSimilarity, hg1, hg2, cosineSimilarity, hl],
          neg_one_le_cosineSimilarityValue v1 v2, cosineSimilarityValue_le_one v1 v2⟩

/-! ## Lemmas about the judge scorer -/

/-- The text-extraction fallback always produces a score in `[0, 1]`: a
pattern match is only accepted inside that range, and the default is `1/2`. -/
theorem extractScoreFromText_score_in_unit (patternMatches : List ℚ) (text : String) :
    0 ≤ (extractScoreFromText patternMatches text).score ∧
      (extractScoreFromText patternMatches text).score ≤ 1 := by
  unfold extractScoreFromText
  cases hfind : patternMatches.find? fun s => decide (0 ≤ s) && decide (s ≤ 1) with
  | none => norm_num
  | some s =>
    have hpred := List.find?_some hfind
    simp only [Bool.and_eq_true, decide_eq_true_eq] at hpred
    simpa using hpred

/-- `parseJudgeResponse` always produces a score in `[0, 1]`: the JSON paths
clamp, and the fallback extractor is range-checked. -/
theorem parseJudgeResponse_score_in_unit (extract : JsonExtract)
    (patternMatches : List ℚ) (text : String) :
    0 ≤ (parseJudgeResponse extract patternMatches text).score ∧
      (parseJudgeResponse extract patternMatches text).score ≤ 1 := by
  cases extract with
  | noMatch => exact extractScoreFromText_score_in_unit patternMatches text
  | parseError => exact extractScoreFromText_score_in_unit patternMatches text
  | parsed j =>
    refine ⟨le_max_left 0 _, max_le (by norm_num) (min_le_left 1 _)⟩

/-- Claim C6: the judge scorer is total (it never throws — including on
provider failure) and its score always lies in `[0, 1]`; in particular, when
the judge output contains no JSON object span and no score pattern matches,
it returns `0.5` with a reason quoting the first 200 characters of the raw
output. -/
theorem judge_score_total_in_unit (providerResult : Except String String)
    (extractOf : String → JsonExtract) (patternsOf : String → List ℚ) :
    (0 ≤ (calculateLlmJudgeScore providerResult extractOf patternsOf).score ∧
      (calculateLlmJudgeScore providerResult extractOf patternsOf).score ≤ 1) ∧
    (∀ text, providerResult = Except.ok text →
      extractOf text = JsonExtract.noMatch →
      patternsOf text = [] →
      calculateLlmJudgeScore providerResult extractOf patternsOf =
        { score := 1 / 2
          reason := "Could not parse evaluation. Response: " ++ text.take 200 }) := by
  constructor
  · cases providerResult with
    | error e => unfold calculateLlmJudgeScore; norm_num
    | ok text => exact parseJudgeResponse_score_in_unit _ _ _
  · intro text hok hext hpat
    subst hok
    simp [calculateLlmJudgeScore, parseJudgeResponse, extractScoreFromText, hext, hpat]

/-- Witness for C6 at a concrete judge output with no JSON and no score
pattern. -/
theorem judge_score_total_in_unit_witness :
    (0 ≤ (calculateLlmJudgeScore (Except.ok "I cannot assess this answer.")
        (fun _ => JsonExtract.noMatch) (fun _ => [])).score ∧
      (calculateLlmJudgeScore (Except.ok "I cannot assess this answer.")
        (fun _ => JsonExtract.noMatch) (fun _ => [])).score ≤ 1) ∧
    calculateLlmJudgeScore (Except.ok "I cannot assess this answer.")
        (fun _ => JsonExtract.noMatch) (fun _ => []) =
      { score := 1 / 2
        reason := "Could not parse evaluation. Response: "
          ++ "I cannot assess this answer.".take 200 } :=
  ⟨(judge_score_total_in_unit (Except.ok "I cannot assess this answer.")
      (fun _ => JsonExtract.noMatch) (fun _ => [])).1,
    (judge_score_total_in_unit (Except.ok "I cannot assess this answer.")
      (fun _ => JsonExtract.noMatch) (fun _ => [])).2
      "I cannot assess this answer." rfl rfl rfl⟩

/-! ## Lemmas about the orchestrator -/

/-- A successful `processTestCase` returns the `COMPLETED` row for exactly
the processed case of the processed run. -/
theorem processTestCase_ok_ids (o : GenerationOracles)
    (testRun : TestRunWithRelations) (testCase : TestCaseData)
    (contextData : String) (r : TestRunResultInput)
    (h : processTestCase o testRun testCase contextData = Except.ok r) :
    r.caseId = testCase.id ∧ r.runId = testRun.id ∧
      r.status = TestRunResultStatus.COMPLETED := by
  unfold processTestCase at h
  split at h
  · exact Except.noConfusion h
  · split at h
    · exact Except.noConfusion h
    · split at h
      · exact Except.noConfusion h
      · cases h
        exact ⟨rfl, rfl, rfl⟩

/-- The per-case fault boundary never returns `null`: it always yields a
row, carrying the processed case's id and the run's id, with status
`COMPLETED` or `FAILED`. -/
theorem processTestCaseSafe_total (o : GenerationOracles)
    (testRun : TestRunWithRelations) (testCase : TestCaseData)
    (contextData : String) (index : Nat) :
    ∃ r, processTestCaseSafe o testRun testCase contextData index = some r ∧
      r.caseId = testCase.id ∧ r.runId = testRun.id ∧
      (r.status = TestRunResultStatus.COMPLETED ∨
        r.status = TestRunResultStatus.FAILED) := by
  unfold processTestCaseSafe
  cases h : processTestCase o testRun testCase contextData with
  | ok result =>
    obtain ⟨hc, hr, hs⟩ := processTestCase_ok_ids o testRun testCase contextData result h
    exact ⟨result, rfl, hc, hr, Or.inl hs⟩
  | error errorMessage =>
    exact ⟨_, rfl, rfl, rfl, Or.inr rfl⟩

/-- Mapping the fault boundary over an indexed case list and dropping the
(nonexistent) `null`s keeps exactly one row per case, in order. -/
theorem filterMap_safe_rows (o : GenerationOracles)
    (testRun : TestRunWithRelations) (contextData : String) :
    ∀ l : List (Nat × TestCaseData),
      (((l.map fun p => processTestCaseSafe o testRun p.2 contextData p.1).filterMap
        id).map fun r => r.caseId) = l.map fun p => p.2.id := by
  intro l
  induction l with
  | nil => rfl
  | cons p ps ih =>
    obtain ⟨r, hr, hcase, -, -⟩ :=
      processTestCaseSafe_total o testRun p.2 contextData p.1
    simp only [List.filterMap_map, Function.id_comp] at ih ⊢
    simp [hr, hcase, ih]

/-- Claim C1: when the initial fetch succeeds, the orchestrator resolves
with exactly one result row per test case of the suite — matching the cases
one-to-one, in order, for every combination of per-case successes and
failures (the oracles are universally quantified) — and sets the run's
completion timestamp. -/
theorem processTestRun_one_result_per_case (o : GenerationOracles)
    (loadFile : String → Except String String)
    (testRun : TestRunWithRelations) (testRunId : String) :
    ∃ eff, processTestRun o loadFile (some testRun) testRunId = Except.ok eff ∧
      eff.savedResults.length = testRun.suite.testCases.length ∧
      (eff.savedResults.map fun r => r.caseId) =
        (testRun.suite.testCases.map fun tc => tc.id) ∧
      eff.completedAtSet = true := by
  unfold processTestRun
  refine ⟨_, rfl, ?_, ?_, rfl⟩
  case refine_2 =>
    have hmap := filterMap_safe_rows o testRun
      (loadContexts loadFile testRun.suite.contexts) testRun.suite.testCases.enum
    have henum : (testRun.suite.testCases.enum.map fun p => p.2.id) =
        testRun.suite.testCases.map fun tc => tc.id := by
      rw [show (fun p : Nat × TestCaseData => p.2.id) =
          (fun tc : TestCaseData => tc.id) ∘ Prod.snd from rfl]
      rw [← List.map_map, List.enum_map_snd]
    simpa [henum] using hmap
  case refine_1 =>
    have hmap := filterMap_safe_rows o testRun
      (loadContexts loadFile testRun.suite.contexts) testRun.suite.testCases.enum
    have hlen := congrArg List.length hmap
    simpa [List.enum_length] using hlen

/-- Claim C2: whenever `processTestCase` throws — at any point of the case's
generation or scoring pipeline — the per-case boundary returns (rather than
propagates) a `FAILED` row with `failReason` the exception message, answer
`"[ERROR] <message>"`, all three scores `0`, and an `llmScoreReason`
restating the failure. -/
theorem processTestCaseSafe_isolates_failure (o : GenerationOracles)
    (testRun : TestRunWithRelations) (testCase : TestCaseData)
    (contextData : String) (index : Nat) (errorMessage : String)
    (h : processTestCase o testRun testCase contextData =
      Except.error errorMessage) :
    processTestCaseSafe o testRun testCase contextData index =
      some
        { runId := testRun.id
          caseId := testCase.id
          status := TestRunResultStatus.FAILED
          failReason := some errorMessage
          answer := "[ERROR] " ++ errorMessage
          bleuScore := 0
          cosineSimScore := 0
          llmScore := 0
          llmScoreReason := "Processing failed: " ++ errorMessage } := by
  unfold processTestCaseSafe
  rw [h]

/-- Witness for C2: a scoring aggregator that throws
`"judge unreachable"` on a text case. -/
theorem processTestCaseSafe_isolates_failure_witness :
    processTestCaseSafe
        ⟨fun _ => Except.error "rt down", fun _ => Except.ok "Paris",
          fun _ => Except.error "judge unreachable"⟩
        ⟨"run-1", "m", "p", 1, 1, 1, ⟨"s", [], []⟩⟩
        ⟨"case-1", some "q", none, none, "Paris"⟩ "ctx" 0 =
      some
        { runId := "run-1"
          caseId := "case-1"
          status := TestRunResultStatus.FAILED
          failReason := some "judge unreachable"
          answer := "[ERROR] " ++ "judge unreachable"
          bleuScore := 0
          cosineSimScore := 0
          llmScore := 0
          llmScoreReason := "Processing failed: " ++ "judge unreachable" } :=
  processTestCaseSafe_isolates_failure
    ⟨fun _ => Except.error "rt down", fun _ => Except.ok "Paris",
      fun _ => Except.error "judge unreachable"⟩
    ⟨"run-1", "m", "p", 1, 1, 1, ⟨"s", [], []⟩⟩
    ⟨"case-1", some "q", none, none, "Paris"⟩ "ctx" 0 "judge unreachable" rfl

/-- Claim C10: a case whose only present question modality is an image
(text and audio absent or blank) is classified as input type `none` and
always yields a `FAILED` row with failReason
`"Test case has no question (text or audio)"`, for every oracle — the image
question is never answered or scored. -/
theorem image_only_case_rejected (o : GenerationOracles)
    (testRun : TestRunWithRelations) (contextData : String) (index : Nat)
    (testCase : TestCaseData)
    (hText : presentNonBlank testCase.questionText = false)
    (hAudio : presentNonBlank testCase.questionAudioPath = false)
    (hImage : truthy testCase.questionImagePath = true) :
    getInputType testCase = InputType.none ∧
    processTestCaseSafe o testRun testCase contextData index =
      some
        { runId := testRun.id
          caseId := testCase.id
          status := TestRunResultStatus.FAILED
          failReason := some "Test case has no question (text or audio)"
          answer := "[ERROR] " ++ "Test case has no question (text or audio)"
          bleuScore := 0
          cosineSimScore := 0
          llmScore := 0
          llmScoreReason :=
            "Processing failed: " ++ "Test case has no question (text or audio)" } := by
  have htype : getInputType testCase = InputType.none := by
    unfold getInputType
    rw [hAudio, hText]
    simp
  refine ⟨htype, ?_⟩
  have herr : processTestCase o testRun testCase contextData =
      Except.error "Test case has no question (text or audio)" := by
    unfold processTestCase
    rw [if_pos htype]
  unfold processTestCaseSafe
  rw [herr]

/-- Witness for C10: an image-only test case. -/
theorem image_only_case_rejected_witness :
    getInputType ⟨"case-img", none, none, some "scan.png", "expected"⟩ =
        InputType.none ∧
      processTestCaseSafe
          ⟨fun _ => Except.ok ⟨"a", none, 0⟩, fun _ => Except.ok "a",
            fun _ => Except.ok ⟨0, 0, 0, "r"⟩⟩
          ⟨"run-1", "m", "p", 1, 1, 1, ⟨"s", [], []⟩⟩
          ⟨"case-img", none, none, some "scan.png", "expected"⟩ "ctx" 0 =
        some
          { runId := "run-1"
            caseId := "case-img"
            status := TestRunResultStatus.FAILED
            failReason := some "Test case has no question (text or audio)"
            answer := "[ERROR] " ++ "Test case has no question (text or audio)"
            bleuScore := 0
            cosineSimScore := 0
            llmScore := 0
            llmScoreReason :=
              "Processing failed: " ++ "Test case has no question (text or audio)" } :=
  image_only_case_rejected
    ⟨fun _ => Except.ok ⟨"a", none, 0⟩, fun _ => Except.ok "a",
      fun _ => Except.ok ⟨0, 0, 0, "r"⟩⟩
    ⟨"run-1", "m", "p", 1, 1, 1, ⟨"s", [], []⟩⟩ "ctx" 0
    ⟨"case-img", none, none, some "scan.png", "expected"⟩
    rfl rfl rfl
